import Mathlib

/-!
Verification of `peewee_graph_models.py` (gustavi/peewee-graph-models).

The script introspects peewee model classes and renders a graphviz document.
We embed the pure generation pass shallowly:

* a peewee field object is abstracted by the attributes the script reads:
  its name (the key in `model._meta.fields`), `type(obj).__name__`,
  `obj.primary_key`, `isinstance(obj, peewee.ForeignKeyField)` and
  `obj.rel_model.__name__`;
* a model is its `__name__` together with the ordered `_meta.fields` items;
* `importlib.import_module` + `inspect.getmembers` are abstracted by an
  environment mapping a module name to its ordered list of peewee models;
* the side effects the claims talk about (module imports, the final
  `Source(...).render(...)` call) are recorded in an event trace, and the
  function returns either the error message the script raises or the
  rendered document together with the render arguments.

String templates are transcribed character by character from the source.
-/

/-- One peewee field, as seen by the script: the key of
`model._meta.fields`, `type(obj).__name__`, `obj.primary_key`,
`isinstance(obj, peewee.ForeignKeyField)` and `obj.rel_model.__name__`
(the last one is only read when the field is a foreign key). -/
structure FieldDefinition where
  name : String
  type_name : String
  primary_key : Bool
  is_foreign_key : Bool
  rel_model_name : String
  deriving DecidableEq, Repr

/-- One peewee model: its class name and its `_meta.fields` items in
mapping (declaration) order. -/
structure ModelDefinition where
  name : String
  fields : List FieldDefinition
  deriving DecidableEq, Repr

/-- The observable effects of a run, in order: importing the peewee
module, importing a requested module, and the final render call. -/
inductive Event where
  | loadPeewee (module_name : String)
  | loadModule (module_name : String)
  | render (export_file export_format : String)
  deriving DecidableEq, Repr

/-- The arguments of the final `Source(graph_dot).render(...)` call. -/
structure RenderCall where
  source : String
  export_file : String
  export_format : String
  cleanup : Bool
  view : Bool
  deriving DecidableEq, Repr

/-- `GRAPH_TEMPLATE.format(models=..., relations=...)` from the source. -/
def GRAPH_TEMPLATE (models relations : String) : String :=
  "digraph peewee_models \x7b\n    fontname = \"Helvetica\"\n    fontsize = 8\n    splines = true\n    node [\n        fontname = \"Helvetica\"\n        fontsize = 8\n        shape = \"plaintext\"\n    ]\n    edge [\n        fontname = \"Helvetica\"\n        fontsize = 8\n    ]\n    " ++ models ++ "\n    " ++ relations ++ "\n\x7d"

/-- `MODEL_TEMPLATE.format(name=..., fields=..., color_bg=..., color_main=...)`. -/
def MODEL_TEMPLATE (name fields color_bg color_main : String) : String :=
  name ++ "\n[label=<\n    <TABLE BGCOLOR=\"" ++ color_bg ++ "\" BORDER=\"0\" CELLBORDER=\"0\" CELLSPACING=\"0\">\n    <TR><TD COLSPAN=\"2\" CELLPADDING=\"4\" ALIGN=\"CENTER\" BGCOLOR=\"" ++ color_main ++ "\">\n    <FONT FACE=\"Helvetica Bold\" COLOR=\"white\">\n    " ++ name ++ "\n    </FONT></TD></TR>\n    " ++ fields ++ "\n    </TABLE>\n>]"

/-- `FIELD_TEMPLATE.format(name=..., type=..., args=..., color=...)`. -/
def FIELD_TEMPLATE (name ty args color : String) : String :=
  "\n    <TR><TD ALIGN=\"LEFT\" BORDER=\"0\">\n    <FONT COLOR=\"" ++ color ++ "\" FACE=\"Helvetica" ++ args ++ "\">" ++ name ++ "</FONT>\n    </TD><TD ALIGN=\"LEFT\">\n    <FONT COLOR=\"" ++ color ++ "\" FACE=\"Helvetica" ++ args ++ "\">" ++ ty ++ "</FONT>\n    </TD></TR>"

/-- `RELATION_TEMPLATE.format(model=..., target_model=..., field=...)`. -/
def RELATION_TEMPLATE (model target_model field : String) : String :=
  model ++ " -> " ++ target_model ++ " [label=\"" ++ field ++ "\"] [arrowhead=empty, arrowtail=none, dir=both];"

/-- Sequential concatenation of string fragments, mirroring the `+=`
accumulation of the Python loops (one fragment per loop iteration). -/
def strJoin : List String → String
  | [] => ""
  | s :: rest => s ++ strJoin rest

/-- `field_dot_args`: `" Bold"` when `obj.primary_key or isinstance(obj,
peewee.ForeignKeyField)`, empty otherwise (lines 115-119). -/
def fieldArgs (f : FieldDefinition) : String :=
  if f.primary_key || f.is_foreign_key then " Bold" else ""

/-- `add_field`: `True`, overridden by `isinstance(obj,
peewee.ForeignKeyField)` when `display == "relations"` (lines 108-110). -/
def add_field (display : String) (f : FieldDefinition) : Bool :=
  if display = "relations" then f.is_foreign_key else true

/-- The contribution of one field to `fields_dot` (lines 106-126):
nothing when `display == "none"`, nothing when `add_field` is false,
otherwise one `FIELD_TEMPLATE` row. -/
def fieldRow (main_color display : String) (f : FieldDefinition) : String :=
  if display ≠ "none" then
    if add_field display f then
      FIELD_TEMPLATE f.name f.type_name (fieldArgs f) main_color
    else ""
  else ""

/-- `target_name` of a relation edge (lines 130-133): `obj.rel_model.__name__`,
qualified as `"<mod>.<name>"` when `display_modules_name` — with `mod` the
module currently being iterated, i.e. the module of the SOURCE model. -/
def edgeTargetName (mod : String) (display_modules_name : Bool)
    (f : FieldDefinition) : String :=
  if display_modules_name then
    "\"" ++ mod ++ "." ++ f.rel_model_name ++ "\""
  else f.rel_model_name

/-- The contribution of one field to `relations_dot` (lines 128-138):
one `RELATION_TEMPLATE` line when the field is a foreign key, nothing
otherwise. `name` is the (possibly module-qualified) source model name. -/
def fieldEdge (mod name : String) (display_modules_name : Bool)
    (f : FieldDefinition) : String :=
  if f.is_foreign_key then
    RELATION_TEMPLATE name (edgeTargetName mod display_modules_name f) f.name
  else ""

/-- The display name of a model node (lines 101-102): qualified as
`"<mod>.<name>"` when `display_modules_name`, bare otherwise. -/
def modelNodeName (mod : String) (display_modules_name : Bool)
    (name : String) : String :=
  if display_modules_name then "\"" ++ mod ++ "." ++ name ++ "\"" else name

/-- `fields_dot` accumulated over `model._meta.fields.items()` (line 104). -/
def modelFieldsDot (main_color display : String) (m : ModelDefinition) : String :=
  strJoin (m.fields.map (fieldRow main_color display))

/-- `relations_dot` contribution of one model: the edge lines accumulated
over its fields, `name` being the (possibly qualified) model name. -/
def modelRelationsDot (mod : String) (display_modules_name : Bool)
    (name : String) (m : ModelDefinition) : String :=
  strJoin (m.fields.map (fieldEdge mod name display_modules_name))

/-- `models_dot` contribution of one model (lines 140-145). -/
def modelDot (mod main_color bg_color display : String)
    (display_modules_name : Bool) (m : ModelDefinition) : String :=
  MODEL_TEMPLATE (modelNodeName mod display_modules_name m.name)
    (modelFieldsDot main_color display m) bg_color main_color

/-- The two accumulators `(models_dot, relations_dot)` after the module
loop (lines 90-145): per requested module, per discovered model, node
blocks and relation edges in iteration order. -/
def buildParts (env : String → List ModelDefinition) (mods : List String)
    (main_color bg_color display : String) (display_modules_name : Bool) :
    String × String :=
  (strJoin (mods.map fun mod =>
      strJoin ((env mod).map (modelDot mod main_color bg_color display
        display_modules_name))),
   strJoin (mods.map fun mod =>
      strJoin ((env mod).map fun m =>
        modelRelationsDot mod display_modules_name
          (modelNodeName mod display_modules_name m.name) m)))

/-- `display in ["all", "relations", "none"]` (line 67). -/
def validDisplay (display : String) : Bool :=
  display = "all" || display = "relations" || display = "none"

/-- Shallow embedding of `export_models` (lines 51-159). `env` abstracts
`importlib.import_module` + `inspect.getmembers`: it maps a module name to
the ordered peewee models found in it. The first component is the trace
of side effects that happened before returning; the second is either the
message of the exception raised or the final render call. The `assert`
on `display` comes first; the peewee import (line 73) precedes the
emptiness check (lines 87-88); requested modules are imported inside the
generation loop (line 95); rendering happens last (lines 153-159). -/
def export_models (env : String → List ModelDefinition) (mods : List String)
    (main_color bg_color export_file export_format : String) (view : Bool)
    (peewee_module display : String) (display_modules_name : Bool) :
    List Event × Except String RenderCall :=
  if validDisplay display then
    if mods.length = 0 then
      ([Event.loadPeewee peewee_module], Except.error "modules cannot be empty")
    else
      let parts := buildParts env mods main_color bg_color display
        display_modules_name
      let graph_dot := GRAPH_TEMPLATE parts.1 parts.2
      (Event.loadPeewee peewee_module :: mods.map Event.loadModule
         ++ [Event.render export_file export_format],
       Except.ok ⟨graph_dot, export_file, export_format, true, view⟩)
  else ([], Except.error "Invalid display argument")

/-- Python `str.split(sep)` on a list of characters: splitting the empty
string gives one empty chunk, and every separator occurrence opens a new
chunk. -/
def pySplit (sep : Char) : List Char → List (List Char)
  | [] => [[]]
  | c :: cs =>
    if c = sep then [] :: pySplit sep cs
    else
      match pySplit sep cs with
      | [] => [[c]]
      | r :: rs => (c :: r) :: rs

/-- `args.modules.split(",")` (line 220). -/
def pySplitComma (s : String) : List String :=
  (pySplit ',' s.data).map String.mk

/-- `modules = list(set(args.modules.split(",")))` (line 220): the comma
chunks with duplicates collapsed (Python set order is arbitrary; only the
member set and hence the count matter downstream). -/
def cliModules (s : String) : List String :=
  (pySplitComma s).dedup

/-- `d_modules_name` derivation (lines 222-224): the flag when given,
otherwise `len(modules) > 1`. -/
def effectiveDMN (flag : Option Bool) (modules : List String) : Bool :=
  match flag with
  | some b => b
  | none => decide (1 < modules.length)

/-- Accumulating an `if`-guarded fragment per element equals accumulating
the fragment over the elements passing the guard: the shape shared by the
`fields_dot` and `relations_dot` loops. -/
theorem strJoin_map_if_filter {α : Type} (p : α → Bool) (g : α → String) :
    ∀ l : List α,
      strJoin (l.map fun x => if p x then g x else "") =
        strJoin ((l.filter p).map g)
  | [] => rfl
  | x :: xs => by
    simp only [List.map_cons, List.filter_cons]
    cases hp : p x <;>
      simp [strJoin, strJoin_map_if_filter p g xs]

/-- Python `split` never returns an empty list: even the empty input
yields one (empty) chunk. -/
theorem pySplit_ne_nil (sep : Char) : ∀ l : List Char, pySplit sep l ≠ []
  | [] => by simp [pySplit]
  | c :: cs => by
    simp only [pySplit]
    split
    · simp
    · split <;> simp

/-- Test fixture: module `a` holds model `User` with a foreign-key field
`profile` targeting `Profile`; module `b` holds model `Profile` with a
primary-key field `id`. -/
def envC1 : String → List ModelDefinition := fun mod =>
  if mod = "a" then
    [⟨"User", [⟨"profile", "ForeignKeyField", false, true, "Profile"⟩]⟩]
  else if mod = "b" then
    [⟨"Profile", [⟨"id", "AutoField", true, false, ""⟩]⟩]
  else []

/-- Test fixture: model `Order` with a primary-key field `id` and a plain
field `total`. -/
def orderModel : ModelDefinition :=
  ⟨"Order", [⟨"id", "AutoField", true, false, ""⟩,
             ⟨"total", "FloatField", false, false, ""⟩]⟩

/-- Claim C1, evaluated at the failing input: with modules `a` (model
`User`, foreign key `profile` targeting `Profile`) and `b` (model
`Profile`) and `display_modules_name` true, the code emits the edge with
BOTH endpoints qualified by module `a` — the module being iterated when
the edge is generated — producing target endpoint `"a.Profile"`, not the
`"b.Profile"` the claim requires, even though the node itself is titled
`"b.Profile"`. The emitted edge endpoint therefore matches no node title. -/
theorem c1_edge_target_uses_source_module :
    (buildParts envC1 ["a", "b"] "#0b7285" "#e3fafc" "all" true).2 =
      "\"a.User\" -> \"a.Profile\" [label=\"profile\"] [arrowhead=empty, arrowtail=none, dir=both];"
    ∧ (buildParts envC1 ["a", "b"] "#0b7285" "#e3fafc" "all" true).2 ≠
      "\"a.User\" -> \"b.Profile\" [label=\"profile\"] [arrowhead=empty, arrowtail=none, dir=both];"
    ∧ modelNodeName "b" true "Profile" = "\"b.Profile\"" := by
  refine ⟨rfl, by decide, rfl⟩

/-- Claim C2 is false as stated: on an empty module list the run does fail
with the configuration error, but the trace already contains the load of
the ORM-framework (peewee) module — the error is NOT raised before every
loading attempt, since `importlib.import_module(peewee_module)` (line 73)
precedes the emptiness check (line 87). -/
theorem c2_counterexample :
    (export_models envC1 [] "#0b7285" "#e3fafc" "peewee_models" "svg" false
      "peewee" "all" false).2 = Except.error "modules cannot be empty"
    ∧ Event.loadPeewee "peewee" ∈ (export_models envC1 [] "#0b7285" "#e3fafc"
        "peewee_models" "svg" false "peewee" "all" false).1 := by
  refine ⟨rfl, by decide⟩

/-- Claim C2 as amended: on an empty module list (any valid display) the
run fails with the configuration error before attempting to load any
REQUESTED module and before rendering — the trace holds exactly the one
peewee load that the code performs before the emptiness check. -/
theorem c2_error_before_requested_module_loads
    (env : String → List ModelDefinition)
    (mc bg file fmt : String) (v : Bool) (pw display : String) (dmn : Bool)
    (hd : display = "all" ∨ display = "relations" ∨ display = "none") :
    export_models env [] mc bg file fmt v pw display dmn =
      ([Event.loadPeewee pw], Except.error "modules cannot be empty") := by
  rcases hd with h | h | h <;> subst h <;> rfl

/-- Witness for the amended claim C2 at a concrete invocation. -/
theorem c2_witness :
    export_models envC1 [] "#0b7285" "#e3fafc" "peewee_models" "svg" false
      "peewee" "all" false =
      ([Event.loadPeewee "peewee"], Except.error "modules cannot be empty") :=
  c2_error_before_requested_module_loads envC1 "#0b7285" "#e3fafc"
    "peewee_models" "svg" false "peewee" "all" false (Or.inl rfl)

/-- Claim C3: with display "none", every node block is the model template
with an empty field-row section regardless of the fields, while the
relation edges of the model are exactly one `RELATION_TEMPLATE` line per
foreign-key field, in field order. -/
theorem c3_display_none_no_rows_edges_remain
    (mod mc bg : String) (dmn : Bool) (m : ModelDefinition) :
    modelDot mod mc bg "none" dmn m =
      MODEL_TEMPLATE (modelNodeName mod dmn m.name) "" bg mc
    ∧ modelRelationsDot mod dmn (modelNodeName mod dmn m.name) m =
        strJoin ((m.fields.filter fun f => f.is_foreign_key).map fun f =>
          RELATION_TEMPLATE (modelNodeName mod dmn m.name)
            (edgeTargetName mod dmn f) f.name) := by
  constructor
  · have h : ∀ l : List FieldDefinition,
        strJoin (l.map (fieldRow mc "none")) = "" := by
      intro l
      induction l with
      | nil => rfl
      | cons x xs ih => simp [strJoin, fieldRow, ih]
    simp [modelDot, modelFieldsDot, h]
  · exact strJoin_map_if_filter _ _ m.fields

/-- Claim C4: with display "relations", the emitted rows are exactly one
row per foreign-key field (always bold, since a relation field is bold),
so a field has a row iff it is a foreign key; and the relations component
of the generated document is identical for any two display values — the
fields shown never affect edge generation. -/
theorem c4_display_relations_rows_iff_fk
    (mc bg : String) (env : String → List ModelDefinition) (mods : List String)
    (dmn : Bool) (m : ModelDefinition) (d1 d2 : String) :
    modelFieldsDot mc "relations" m =
      strJoin ((m.fields.filter fun f => f.is_foreign_key).map fun f =>
        FIELD_TEMPLATE f.name f.type_name " Bold" mc)
    ∧ (buildParts env mods mc bg d1 dmn).2 =
        (buildParts env mods mc bg d2 dmn).2 := by
  constructor
  · have h : m.fields.map (fieldRow mc "relations") =
        m.fields.map (fun f => if f.is_foreign_key then
          FIELD_TEMPLATE f.name f.type_name " Bold" mc else "") := by
      refine List.map_congr_left fun f _ => ?_
      cases hf : f.is_foreign_key <;> simp [fieldRow, add_field, fieldArgs, hf]
    simp only [modelFieldsDot]
    rw [h]
    exact strJoin_map_if_filter _ _ m.fields
  · rfl

/-- Claim C5: an emitted row carries the bold font variant exactly when
the field is a primary key or a foreign key, and on the `Order` fixture
(primary key `id`, plain `total`, display "all") the `id` row is bold and
the `total` row is normal weight. -/
theorem c5_bold_iff_pk_or_relation (mc : String) (f : FieldDefinition) :
    (f.primary_key = true ∨ f.is_foreign_key = true →
      fieldRow mc "all" f = FIELD_TEMPLATE f.name f.type_name " Bold" mc)
    ∧ (f.primary_key = false → f.is_foreign_key = false →
      fieldRow mc "all" f = FIELD_TEMPLATE f.name f.type_name "" mc)
    ∧ modelFieldsDot mc "all" orderModel =
        FIELD_TEMPLATE "id" "AutoField" " Bold" mc ++
          FIELD_TEMPLATE "total" "FloatField" "" mc := by
  refine ⟨?_, ?_, ?_⟩
  · rintro (h | h) <;> simp [fieldRow, add_field, fieldArgs, h]
  · intro h1 h2
    simp [fieldRow, add_field, fieldArgs, h1, h2]
  · simp [modelFieldsDot, orderModel, strJoin, fieldRow, add_field, fieldArgs,
      String.append_empty]

/-- Witness for claim C5 on the primary-key field `id`. -/
theorem c5_witness :
    fieldRow "#0b7285" "all" ⟨"id", "AutoField", true, false, ""⟩ =
      FIELD_TEMPLATE "id" "AutoField" " Bold" "#0b7285" :=
  (c5_bold_iff_pk_or_relation "#0b7285" ⟨"id", "AutoField", true, false, ""⟩).1
    (Or.inl rfl)

/-- Claim C6: the relation lines of a model are exactly one line per
foreign-key field, each of the literal shape
`<source> -> <target> [label="<field>"] [arrowhead=empty, arrowtail=none, dir=both];`. -/
theorem c6_one_edge_per_fk_exact_shape
    (mod nm : String) (dmn : Bool) (m : ModelDefinition) :
    modelRelationsDot mod dmn nm m =
      strJoin ((m.fields.filter fun f => f.is_foreign_key).map fun f =>
        nm ++ " -> " ++ edgeTargetName mod dmn f ++ " [label=\"" ++ f.name ++
          "\"] [arrowhead=empty, arrowtail=none, dir=both];") :=
  strJoin_map_if_filter _ _ m.fields

/-- Claim C7: for the row-emitting display values, the emitted rows are
exactly the fields surviving the `add_field` guard, one template row per
surviving field, in the declaration order of the fields mapping — no
reordering, dropping or duplication. -/
theorem c7_row_order_preserves_field_order
    (mc display : String) (m : ModelDefinition)
    (hd : display = "all" ∨ display = "relations") :
    modelFieldsDot mc display m =
      strJoin ((m.fields.filter (add_field display)).map fun f =>
        FIELD_TEMPLATE f.name f.type_name (fieldArgs f) mc) := by
  have h : m.fields.map (fieldRow mc display) =
      m.fields.map (fun f => if add_field display f then
        FIELD_TEMPLATE f.name f.type_name (fieldArgs f) mc else "") := by
    refine List.map_congr_left fun f _ => ?_
    rcases hd with h | h <;> subst h <;> simp [fieldRow]
  simp only [modelFieldsDot]
  rw [h]
  exact strJoin_map_if_filter _ _ m.fields

/-- Witness for claim C7 on the `Order` fixture with display "all". -/
theorem c7_witness :
    modelFieldsDot "#0b7285" "all" orderModel =
      strJoin ((orderModel.fields.filter (add_field "all")).map fun f =>
        FIELD_TEMPLATE f.name f.type_name (fieldArgs f) "#0b7285") :=
  c7_row_order_preserves_field_order "#0b7285" "all" orderModel (Or.inl rfl)

/-- Claim C8: when the flag is unset, the effective value of
`display_modules_name` is derived from the deduplicated comma-split module
list: true when it has more than one element, false when it has exactly
one. -/
theorem c8_default_from_dedup_count (s : String) :
    (1 < (cliModules s).length →
      effectiveDMN Option.none (cliModules s) = true)
    ∧ ((cliModules s).length = 1 →
      effectiveDMN Option.none (cliModules s) = false) := by
  constructor
  · intro h
    simp [effectiveDMN, h]
  · intro h
    simp [effectiveDMN, h]

/-- Witness for claim C8 on two-module and one-module inputs. -/
theorem c8_witness :
    effectiveDMN Option.none (cliModules "a,b") = true
    ∧ effectiveDMN Option.none (cliModules "a") = false :=
  ⟨(c8_default_from_dedup_count "a,b").1 (by decide),
   (c8_default_from_dedup_count "a").2 (by decide)⟩

/-- Claim C9: the comma-split, deduplicated module list of ANY
command-line string is non-empty (the empty string yields the single
module name of length zero), so the empty-module-list branch of
`export_models` is unreachable from the entry point: its error message is
never the result of an invocation built by the command line. -/
theorem c9_cli_modules_never_empty (s : String)
    (env : String → List ModelDefinition) (mc bg file fmt : String)
    (v : Bool) (pw display : String) (dmn : Bool) :
    cliModules "" = [""]
    ∧ (cliModules s).length ≠ 0
    ∧ (export_models env (cliModules s) mc bg file fmt v pw display dmn).2 ≠
        Except.error "modules cannot be empty" := by
  have hne : (cliModules s).length ≠ 0 := by
    simp only [cliModules, ne_eq, List.length_eq_zero, List.dedup_eq_nil,
      pySplitComma]
    intro h
    exact pySplit_ne_nil ',' s.data (List.map_eq_nil_iff.mp h)
  refine ⟨rfl, hne, ?_⟩
  unfold export_models
  cases hv : validDisplay display
  · simp
  · simp [hne]

/-- Claim C10: a display value outside the allowed three makes
`export_models` fail on its first statement: the result is the assertion
error with an EMPTY trace — no peewee load, no requested-module load, no
render call. -/
theorem c10_invalid_display_fails_first
    (env : String → List ModelDefinition) (mods : List String)
    (mc bg file fmt : String) (v : Bool) (pw display : String) (dmn : Bool)
    (h1 : display ≠ "all") (h2 : display ≠ "relations")
    (h3 : display ≠ "none") :
    export_models env mods mc bg file fmt v pw display dmn =
      ([], Except.error "Invalid display argument") := by
  have hv : validDisplay display = false := by
    simp [validDisplay, h1, h2, h3]
  simp [export_models, hv]

/-- Witness for claim C10 at the invalid display value "fields". -/
theorem c10_witness :
    export_models envC1 ["a"] "#0b7285" "#e3fafc" "peewee_models" "svg" false
      "peewee" "fields" true =
      ([], Except.error "Invalid display argument") :=
  c10_invalid_display_fails_first envC1 ["a"] "#0b7285" "#e3fafc"
    "peewee_models" "svg" false "peewee" "fields" true
    (by decide) (by decide) (by decide)
